import Mathlib

/-!
Verification of the contact-form backend (Django project `contactus_project`).

The request handler is `backend/contact/views.py` (`create_contact`); the
persisted entity is the `Contact` model declared by
`backend/contact/migrations/0001_initial.py`.  The serializer
`ContactSerializer` is imported by the view but its file
(`backend/contact/serializers.py`) is not among the sources, so the
validation rules are modelled from the specification together with the
field declarations of the migration.
-/

namespace ContactUs

/-- An inbound field mapping for the contact form.  Each field may be absent
from the request body, hence `Option String`. The caller can never supply
`id` or `created_at`: they are not part of the inbound mapping. -/
structure ContactInput where
  name : Option String
  email : Option String
  phone : Option String
  subject : Option String
  inquiry : Option String
  contact_method : Option String
  deriving DecidableEq

/-- A normalized submission, after validation, minus the store-assigned
`id` and `created_at`. -/
structure Submission where
  name : String
  email : String
  phone : String
  subject : String
  inquiry : String
  contact_method : String
  deriving DecidableEq

/-- A persisted `Contact` row, fields as declared in migration
`0001_initial.py`: `id` (BigAutoField), the six text fields, and
`created_at` (DateTimeField with auto_now_add). Timestamps are modelled
as natural numbers. -/
structure ContactRecord where
  id : Nat
  name : String
  email : String
  phone : String
  subject : String
  inquiry : String
  contact_method : String
  created_at : Nat
  deriving DecidableEq

/-- Modelled from the spec: the store (Django ORM table behind the
`Contact` model, not among the sources).  It keeps the already persisted
rows and the identity counter backing the `BigAutoField` primary key. -/
structure Store where
  nextId : Nat
  records : List ContactRecord
  deriving DecidableEq

/-- Build the persisted row from a normalized submission, the identity
assigned by the store and the persistence-time timestamp. -/
def mkRecord (id : Nat) (s : Submission) (now : Nat) : ContactRecord :=
  { id := id
    name := s.name
    email := s.email
    phone := s.phone
    subject := s.subject
    inquiry := s.inquiry
    contact_method := s.contact_method
    created_at := now }

/-- Modelled from the spec (section 4.2, `append(submission) -> id`):
the store assigns the current value of the identity counter, appends the
row stamped with the current time, and returns the assigned identity. -/
def Store.append (st : Store) (s : Submission) (now : Nat) : Store × Nat :=
  ({ nextId := st.nextId + 1
     records := st.records ++ [mkRecord st.nextId s now] }, st.nextId)

/-- Split a character list at every occurrence of the at-sign. -/
def atParts : List Char → List (List Char)
  | [] => [[]]
  | c :: rest =>
      let ps := atParts rest
      if c = '@' then [] :: ps
      else
        match ps with
        | [] => [[c]]
        | p :: tl => (c :: p) :: tl

/-- Modelled from the spec: "email must match standard email syntax" with
an "@"-delimited domain form — exactly one at-sign, a non-empty local
part, and a non-empty domain containing a dot. -/
def emailFormatOk (e : String) : Bool :=
  match atParts e.toList with
  | [loc, dom] => !loc.isEmpty && !dom.isEmpty && dom.contains '.'
  | _ => false

/-- Error message for an absent required field. -/
def requiredMsg : String := "This field is required."

/-- Error message for an empty required field. -/
def blankMsg : String := "This field may not be blank."

/-- Error message for a field exceeding its maximum length. -/
def maxLenMsg (n : Nat) : String :=
  "Ensure this field has no more than " ++ toString n ++ " characters."

/-- Error message for a malformed email address. -/
def emailFormatMsg : String := "Enter a valid email address."

/-- Modelled from the spec: validation of a required bounded text field
(`CharField` with a `max_length`): it must be present, non-empty, and at
most `maxLen` characters long. -/
def requiredCharErrors (v : Option String) (maxLen : Nat) : List String :=
  match v with
  | none => [requiredMsg]
  | some s =>
      (if s = "" then [blankMsg] else []) ++
      (if s.length > maxLen then
        [maxLenMsg maxLen]
       else [])

/-- Modelled from the spec: validation of the required unbounded text
field `inquiry` (`TextField`): present and non-empty. -/
def requiredTextErrors (v : Option String) : List String :=
  match v with
  | none => [requiredMsg]
  | some s => if s = "" then [blankMsg] else []

/-- Modelled from the spec: validation of an optional bounded text field
(`CharField` with `blank=True`): absence and emptiness are fine, only the
length bound is checked. -/
def optionalCharErrors (v : Option String) (maxLen : Nat) : List String :=
  match v with
  | none => []
  | some s =>
      if s.length > maxLen then
        [maxLenMsg maxLen]
      else []

/-- Modelled from the spec: validation of the `email` field
(`EmailField`, `max_length=254`): required, non-empty, bounded, and in
standard email syntax. -/
def emailErrors (v : Option String) : List String :=
  match v with
  | none => [requiredMsg]
  | some s =>
      (if s = "" then [blankMsg] else []) ++
      (if s.length > 254 then
        [maxLenMsg 254]
       else []) ++
      (if emailFormatOk s then [] else [emailFormatMsg])

/-- Modelled from the spec: the per-field error mapping of
`ContactSerializer` — field name paired with its list of error strings,
keeping only the fields that actually failed.  Field set and constraints
are those of migration `0001_initial.py`. -/
def fieldErrors (i : ContactInput) : List (String × List String) :=
  List.filter (fun p => decide (p.2 ≠ []))
    [("name", requiredCharErrors i.name 100),
     ("email", emailErrors i.email),
     ("phone", optionalCharErrors i.phone 20),
     ("subject", requiredCharErrors i.subject 100),
     ("inquiry", requiredTextErrors i.inquiry),
     ("contact_method", optionalCharErrors i.contact_method 20)]

/-- Modelled from the spec: normalization — optional fields default to
empty text when absent (section 4.1). -/
def normalize (i : ContactInput) : Submission :=
  { name := i.name.getD ""
    email := i.email.getD ""
    phone := i.phone.getD ""
    subject := i.subject.getD ""
    inquiry := i.inquiry.getD ""
    contact_method := i.contact_method.getD "" }

/-- Modelled from the spec: the serializer verdict — a normalized
submission when no field fails, otherwise the structured field-level
error list. -/
def validate (i : ContactInput) : Except (List (String × List String)) Submission :=
  if fieldErrors i = [] then .ok (normalize i) else .error (fieldErrors i)

/-- Status code `rest_framework.status.HTTP_201_CREATED`. -/
def HTTP_201_CREATED : Nat := 201

/-- Status code `rest_framework.status.HTTP_400_BAD_REQUEST`. -/
def HTTP_400_BAD_REQUEST : Nat := 400

/-- Status code for method not allowed, produced by the `api_view`
decorator for a method outside the allowed list. -/
def HTTP_405_METHOD_NOT_ALLOWED : Nat := 405

/-- Status code `rest_framework.status.HTTP_500_INTERNAL_SERVER_ERROR`. -/
def HTTP_500_INTERNAL_SERVER_ERROR : Nat := 500

/-- An HTTP response as built by the view: status code, the `message`
entry of the body, and the optional `errors` mapping of the body. -/
structure HttpResponse where
  statusCode : Nat
  message : String
  errors : Option (List (String × List String))
  deriving DecidableEq

/-- The observable outcome of one request: the response, the store after
the request, and the lines written to the server-side log. -/
structure Outcome where
  response : HttpResponse
  store : Store
  log : List String
  deriving DecidableEq

/-- The view `create_contact` of `backend/contact/views.py`.

`method` is the HTTP method of the request; the `api_view(['POST'])`
decorator rejects any other method before the handler body runs.
`storageFault` models the exception raised by `serializer.save()` when
the persistence layer fails: `none` means the write succeeds, `some e`
means an exception with text `e` is raised and lands in the handler's
`except` block, which logs it and answers with the generic message. -/
def create_contact (method : String) (body : ContactInput)
    (storageFault : Option String) (st : Store) (now : Nat) : Outcome :=
  if method = "POST" then
    match validate body with
    | .error errs =>
        { response :=
            { statusCode := HTTP_400_BAD_REQUEST
              message := "Invalid data"
              errors := some errs }
          store := st
          log := [] }
    | .ok sub =>
        match storageFault with
        | none =>
            { response :=
                { statusCode := HTTP_201_CREATED
                  message := "Contact form submitted successfully"
                  errors := none }
              store := (st.append sub now).1
              log := [] }
        | some e =>
            { response :=
                { statusCode := HTTP_500_INTERNAL_SERVER_ERROR
                  message := "An error occurred while processing your request"
                  errors := none }
              store := st
              log := ["Error processing contact form: " ++ e] }
  else
    { response :=
        { statusCode := HTTP_405_METHOD_NOT_ALLOWED
          message := "Method \"" ++ method ++ "\" not allowed."
          errors := none }
      store := st
      log := [] }

/-- A fully valid sample input: the one named by the specification. -/
def aliceInput : ContactInput :=
  { name := some "Alice"
    email := some "alice@example.com"
    phone := none
    subject := some "Hello"
    inquiry := some "Test message"
    contact_method := none }

/-- A store holding no submission yet, with the identity counter at 1. -/
def st0 : Store := { nextId := 1, records := [] }

/-- The serializer accepts exactly the inputs with no field error. -/
theorem validate_ok_of_noErrors (i : ContactInput) (h : fieldErrors i = []) :
    validate i = .ok (normalize i) := by
  simp [validate, h]

/-- The serializer rejects exactly the inputs with some field error. -/
theorem validate_error_of_errors (i : ContactInput) (h : fieldErrors i ≠ []) :
    validate i = .error (fieldErrors i) := by
  simp [validate, h]

/-- The outcome o is a bad-request rejection carrying, under field name f,
the error list es (which is non-empty). -/
def RejectedOn (o : Outcome) (f : String) (es : List String) : Prop :=
  o.response.statusCode = HTTP_400_BAD_REQUEST ∧
  o.response.message = "Invalid data" ∧
  es ≠ [] ∧
  ∃ errs, o.response.errors = some errs ∧ (f, es) ∈ errs

/-- Any field that fails validation surfaces in the rejection response of
a POST request, with the store untouched. -/
theorem rejectedOn_of_mem_fieldErrors (body : ContactInput) (fault : Option String)
    (st : Store) (now : Nat) (f : String) (es : List String)
    (hmem : (f, es) ∈ fieldErrors body) :
    RejectedOn (create_contact "POST" body fault st now) f es := by
  have hne : fieldErrors body ≠ [] := List.ne_nil_of_mem hmem
  have hes : es ≠ [] := by
    have := (List.mem_filter.1 hmem).2
    simpa using this
  refine ⟨?_, ?_, hes, fieldErrors body, ?_, hmem⟩ <;>
    simp [create_contact, validate_error_of_errors body hne]

/-- Membership of the name errors in the field-error mapping. -/
theorem name_mem_fieldErrors (i : ContactInput)
    (h : requiredCharErrors i.name 100 ≠ []) :
    ("name", requiredCharErrors i.name 100) ∈ fieldErrors i := by
  unfold fieldErrors
  exact List.mem_filter.2 ⟨by simp, by simpa using h⟩

/-- Membership of the email errors in the field-error mapping. -/
theorem email_mem_fieldErrors (i : ContactInput)
    (h : emailErrors i.email ≠ []) :
    ("email", emailErrors i.email) ∈ fieldErrors i := by
  unfold fieldErrors
  exact List.mem_filter.2 ⟨by simp, by simpa using h⟩

/-- Membership of the subject errors in the field-error mapping. -/
theorem subject_mem_fieldErrors (i : ContactInput)
    (h : requiredCharErrors i.subject 100 ≠ []) :
    ("subject", requiredCharErrors i.subject 100) ∈ fieldErrors i := by
  unfold fieldErrors
  exact List.mem_filter.2 ⟨by simp, by simpa using h⟩

/-- Membership of the inquiry errors in the field-error mapping. -/
theorem inquiry_mem_fieldErrors (i : ContactInput)
    (h : requiredTextErrors i.inquiry ≠ []) :
    ("inquiry", requiredTextErrors i.inquiry) ∈ fieldErrors i := by
  unfold fieldErrors
  exact List.mem_filter.2 ⟨by simp, by simpa using h⟩

/-- C1: on a POST with a fully valid field mapping the handler answers
201 Created with the success message, and the store gains exactly one
record holding the normalized fields, the assigned id (the identity
counter) and the submission-time timestamp. -/
theorem create_contact_valid_created (body : ContactInput) (st : Store) (now : Nat)
    (h : fieldErrors body = []) :
    (create_contact "POST" body none st now).response.statusCode = HTTP_201_CREATED ∧
    (create_contact "POST" body none st now).response.message =
      "Contact form submitted successfully" ∧
    (create_contact "POST" body none st now).store.records =
      st.records ++ [mkRecord st.nextId (normalize body) now] ∧
    (create_contact "POST" body none st now).store.nextId = st.nextId + 1 := by
  simp [create_contact, validate_ok_of_noErrors body h, Store.append]

/-- Witness for C1 at the specification input. -/
theorem create_contact_valid_created_witness :
    (create_contact "POST" aliceInput none st0 0).response.statusCode = HTTP_201_CREATED ∧
    (create_contact "POST" aliceInput none st0 0).response.message =
      "Contact form submitted successfully" ∧
    (create_contact "POST" aliceInput none st0 0).store.records =
      st0.records ++ [mkRecord st0.nextId (normalize aliceInput) 0] ∧
    (create_contact "POST" aliceInput none st0 0).store.nextId = st0.nextId + 1 :=
  create_contact_valid_created aliceInput st0 0 (by decide)

/-- C2: when the serializer fails, the handler answers 400 Bad Request
with the field-level error mapping in the body, and the store is exactly
as before, whatever the storage layer would have done. -/
theorem create_contact_invalid_rejected (body : ContactInput) (fault : Option String)
    (st : Store) (now : Nat) (h : fieldErrors body ≠ []) :
    (create_contact "POST" body fault st now).response.statusCode = HTTP_400_BAD_REQUEST ∧
    (create_contact "POST" body fault st now).response.message = "Invalid data" ∧
    (create_contact "POST" body fault st now).response.errors = some (fieldErrors body) ∧
    (create_contact "POST" body fault st now).store = st ∧
    (create_contact "POST" body fault st now).log = [] := by
  simp [create_contact, validate_error_of_errors body h]

/-- An input with every field absent; every required field fails. -/
def emptyInput : ContactInput :=
  { name := none, email := none, phone := none
    subject := none, inquiry := none, contact_method := none }

/-- Witness for C2 at the all-absent input. -/
theorem create_contact_invalid_rejected_witness :
    (create_contact "POST" emptyInput none st0 0).response.statusCode = HTTP_400_BAD_REQUEST ∧
    (create_contact "POST" emptyInput none st0 0).response.message = "Invalid data" ∧
    (create_contact "POST" emptyInput none st0 0).response.errors = some (fieldErrors emptyInput) ∧
    (create_contact "POST" emptyInput none st0 0).store = st0 ∧
    (create_contact "POST" emptyInput none st0 0).log = [] :=
  create_contact_invalid_rejected emptyInput none st0 0 (by decide)

/-- C3: when the storage layer raises on write after validation passed,
the handler answers 500 with a body holding only the fixed generic
message (the same response whatever the exception text), the exception
text is recorded in the server-side log, and the store is unchanged. -/
theorem create_contact_storage_fault (body : ContactInput) (st : Store) (now : Nat)
    (e : String) (h : fieldErrors body = []) :
    (create_contact "POST" body (some e) st now).response =
      { statusCode := HTTP_500_INTERNAL_SERVER_ERROR
        message := "An error occurred while processing your request"
        errors := none } ∧
    (create_contact "POST" body (some e) st now).log =
      ["Error processing contact form: " ++ e] ∧
    (create_contact "POST" body (some e) st now).store = st := by
  simp [create_contact, validate_ok_of_noErrors body h]

/-- Witness for C3 at the specification input with a failing write. -/
theorem create_contact_storage_fault_witness :
    (create_contact "POST" aliceInput (some "database unavailable") st0 0).response =
      { statusCode := HTTP_500_INTERNAL_SERVER_ERROR
        message := "An error occurred while processing your request"
        errors := none } ∧
    (create_contact "POST" aliceInput (some "database unavailable") st0 0).log =
      ["Error processing contact form: " ++ "database unavailable"] ∧
    (create_contact "POST" aliceInput (some "database unavailable") st0 0).store = st0 :=
  create_contact_storage_fault aliceInput st0 0 "database unavailable" (by decide)

/-- The field value is absent from the mapping or present but empty. -/
def missingOrBlank (v : Option String) : Prop := v = none ∨ v = some ""

/-- C4: whenever any of the required fields name, email, subject or
inquiry is absent or empty, the POST is rejected with a field error
recorded under that field's name. -/
theorem create_contact_missing_required_rejected (body : ContactInput)
    (fault : Option String) (st : Store) (now : Nat) :
    (missingOrBlank body.name →
      RejectedOn (create_contact "POST" body fault st now) "name"
        (requiredCharErrors body.name 100)) ∧
    (missingOrBlank body.email →
      RejectedOn (create_contact "POST" body fault st now) "email"
        (emailErrors body.email)) ∧
    (missingOrBlank body.subject →
      RejectedOn (create_contact "POST" body fault st now) "subject"
        (requiredCharErrors body.subject 100)) ∧
    (missingOrBlank body.inquiry →
      RejectedOn (create_contact "POST" body fault st now) "inquiry"
        (requiredTextErrors body.inquiry)) := by
  refine ⟨fun h => ?_, fun h => ?_, fun h => ?_, fun h => ?_⟩
  · exact rejectedOn_of_mem_fieldErrors body fault st now _ _
      (name_mem_fieldErrors body (by rcases h with h | h <;> rw [h] <;> decide))
  · exact rejectedOn_of_mem_fieldErrors body fault st now _ _
      (email_mem_fieldErrors body (by rcases h with h | h <;> rw [h] <;> decide))
  · exact rejectedOn_of_mem_fieldErrors body fault st now _ _
      (subject_mem_fieldErrors body (by rcases h with h | h <;> rw [h] <;> decide))
  · exact rejectedOn_of_mem_fieldErrors body fault st now _ _
      (inquiry_mem_fieldErrors body (by rcases h with h | h <;> rw [h] <;> decide))

/-- The specification input with the name removed. -/
def noNameInput : ContactInput :=
  { aliceInput with name := none }

/-- Witness for C4: removing the name from the valid input yields a
rejection with an error under the field name. -/
theorem create_contact_missing_required_rejected_witness :
    RejectedOn (create_contact "POST" noNameInput none st0 0) "name"
      (requiredCharErrors noNameInput.name 100) :=
  (create_contact_missing_required_rejected noNameInput none st0 0).1 (by left; decide)

/-- A malformed email always contributes the email-format message. -/
theorem emailFormatMsg_mem_emailErrors (e : String) (hfmt : emailFormatOk e = false) :
    emailFormatMsg ∈ emailErrors (some e) := by
  simp [emailErrors, hfmt]

/-- C5: whenever the supplied email lacks an at-delimited domain form,
the POST is rejected, the error list under the field name email surfaces
in the response, and it holds the email-format message. -/
theorem create_contact_bad_email_rejected (body : ContactInput) (fault : Option String)
    (st : Store) (now : Nat) (e : String)
    (hmail : body.email = some e) (hfmt : emailFormatOk e = false) :
    RejectedOn (create_contact "POST" body fault st now) "email"
      (emailErrors body.email) ∧
    emailFormatMsg ∈ emailErrors body.email := by
  have hmem : emailFormatMsg ∈ emailErrors body.email := by
    rw [hmail]; exact emailFormatMsg_mem_emailErrors e hfmt
  exact ⟨rejectedOn_of_mem_fieldErrors body fault st now _ _
      (email_mem_fieldErrors body (List.ne_nil_of_mem hmem)), hmem⟩

/-- The specification input with the email replaced by text without an
at-sign. -/
def badEmailInput : ContactInput :=
  { aliceInput with email := some "notanemail" }

/-- Witness for C5 at a concrete at-less email. -/
theorem create_contact_bad_email_rejected_witness :
    RejectedOn (create_contact "POST" badEmailInput none st0 0) "email"
      (emailErrors badEmailInput.email) ∧
    emailFormatMsg ∈ emailErrors badEmailInput.email :=
  create_contact_bad_email_rejected badEmailInput none st0 0 "notanemail"
    (by decide) (by decide)

/-- A too-long value always contributes the length message. -/
theorem maxLenMsg_mem_requiredCharErrors (s : String) (maxLen : Nat)
    (hlen : s.length > maxLen) :
    maxLenMsg maxLen ∈ requiredCharErrors (some s) maxLen := by
  simp [requiredCharErrors, hlen]

/-- C6: whenever the supplied name exceeds 100 characters, the POST is
rejected, the error list under the field name name surfaces in the
response, and it holds the length message for the bound 100. -/
theorem create_contact_long_name_rejected (body : ContactInput) (fault : Option String)
    (st : Store) (now : Nat) (n : String)
    (hname : body.name = some n) (hlen : n.length > 100) :
    RejectedOn (create_contact "POST" body fault st now) "name"
      (requiredCharErrors body.name 100) ∧
    maxLenMsg 100 ∈ requiredCharErrors body.name 100 := by
  have hmem : maxLenMsg 100 ∈ requiredCharErrors body.name 100 := by
    rw [hname]; exact maxLenMsg_mem_requiredCharErrors n 100 hlen
  exact ⟨rejectedOn_of_mem_fieldErrors body fault st now _ _
      (name_mem_fieldErrors body (List.ne_nil_of_mem hmem)), hmem⟩

/-- A 101-character name. -/
def longName : String :=
  "aaaaaaaaaaaaaaaaaaaaaaaaaaaaaaaaaaaaaaaaaaaaaaaaaaaaaaaaaaaaaaaaaaaaaaaaaaaaaaaaaaaaaaaaaaaaaaaaaaaaa"

/-- The specification input with the name replaced by 101 characters. -/
def longNameInput : ContactInput :=
  { aliceInput with name := some longName }

/-- Witness for C6 at a concrete 101-character name. -/
theorem create_contact_long_name_rejected_witness :
    RejectedOn (create_contact "POST" longNameInput none st0 0) "name"
      (requiredCharErrors longNameInput.name 100) ∧
    maxLenMsg 100 ∈ requiredCharErrors longNameInput.name 100 :=
  create_contact_long_name_rejected longNameInput none st0 0 longName
    (by decide) (by decide)

/-- C7: the handler never rewrites or removes a persisted row: after any
request the store's record list is either exactly the old one or the old
one extended by a single fresh row, whose id and created_at come from
the identity counter and the server clock, never from the caller's field
mapping (which has no such fields). -/
theorem create_contact_append_only (method : String) (body : ContactInput)
    (fault : Option String) (st : Store) (now : Nat) :
    (create_contact method body fault st now).store.records = st.records ∨
    (create_contact method body fault st now).store.records =
      st.records ++ [mkRecord st.nextId (normalize body) now] := by
  by_cases hm : method = "POST"
  · subst hm
    by_cases hfe : fieldErrors body = []
    · cases fault with
      | none =>
          right
          simp [create_contact, validate_ok_of_noErrors body hfe, Store.append]
      | some e =>
          left
          simp [create_contact, validate_ok_of_noErrors body hfe]
    · left
      simp [create_contact, validate_error_of_errors body hfe]
  · left
    simp [create_contact, hm]

/-- C8: a valid submission that omits phone and contact_method is still
accepted, and the persisted row carries them as empty text. -/
theorem create_contact_optional_defaults (body : ContactInput) (st : Store) (now : Nat)
    (hp : body.phone = none) (hc : body.contact_method = none)
    (hv : fieldErrors body = []) :
    (normalize body).phone = "" ∧
    (normalize body).contact_method = "" ∧
    (create_contact "POST" body none st now).response.statusCode = HTTP_201_CREATED ∧
    (create_contact "POST" body none st now).store.records =
      st.records ++ [mkRecord st.nextId (normalize body) now] := by
  refine ⟨by simp [normalize, hp], by simp [normalize, hc], ?_, ?_⟩ <;>
    simp [create_contact, validate_ok_of_noErrors body hv, Store.append]

/-- Witness for C8 at the specification input, which omits both optional
fields. -/
theorem create_contact_optional_defaults_witness :
    (normalize aliceInput).phone = "" ∧
    (normalize aliceInput).contact_method = "" ∧
    (create_contact "POST" aliceInput none st0 0).response.statusCode = HTTP_201_CREATED ∧
    (create_contact "POST" aliceInput none st0 0).store.records =
      st0.records ++ [mkRecord st0.nextId (normalize aliceInput) 0] :=
  create_contact_optional_defaults aliceInput st0 0 (by decide) (by decide) (by decide)

/-- The ids of the persisted rows, in storage order. -/
def storeIds (st : Store) : List Nat := st.records.map (fun r => r.id)

/-- The store's identity invariant: ids strictly increase along the
record list (hence are unique), and all sit below the identity counter. -/
def StoreIdInv (st : Store) : Prop :=
  (storeIds st).Pairwise (· < ·) ∧ ∀ i ∈ storeIds st, i < st.nextId

/-- Appending one row extends the id list with the allocated id. -/
theorem storeIds_append (st : Store) (s : Submission) (t : Nat) :
    storeIds (st.append s t).1 = storeIds st ++ [st.nextId] := by
  simp [storeIds, Store.append, mkRecord]

/-- One atomic allocation preserves the identity invariant. -/
theorem storeIdInv_append (st : Store) (s : Submission) (t : Nat)
    (hinv : StoreIdInv st) : StoreIdInv (st.append s t).1 := by
  obtain ⟨hpw, hlt⟩ := hinv
  constructor
  · rw [storeIds_append]
    refine List.pairwise_append.2 ⟨hpw, List.pairwise_singleton _ _, ?_⟩
    intro a ha b hb
    have hbn : b = st.nextId := by simpa using hb
    subst hbn
    exact hlt a ha
  · intro i hi
    rw [storeIds_append] at hi
    rcases List.mem_append.1 hi with h | h
    · exact Nat.lt_succ_of_lt (hlt i h)
    · have : i = st.nextId := by simpa using h
      simp [this, Store.append]
  
/-- C9: identity allocation is atomic and serialized: running two valid
submissions against the store in either interleaving means two back-to-
back appends, and in each serialization the two returned ids differ;
uniqueness and strict monotonic growth of the stored ids are preserved. -/
theorem store_append_distinct_ids (st : Store) (s1 s2 : Submission) (t1 t2 : Nat)
    (hinv : StoreIdInv st) :
    (st.append s1 t1).2 ≠ ((st.append s1 t1).1.append s2 t2).2 ∧
    StoreIdInv ((st.append s1 t1).1.append s2 t2).1 ∧
    storeIds ((st.append s1 t1).1.append s2 t2).1 =
      storeIds st ++ [st.nextId, st.nextId + 1] := by
  refine ⟨?_, storeIdInv_append _ s2 t2 (storeIdInv_append st s1 t1 hinv), ?_⟩
  · simp [Store.append]
  · rw [storeIds_append, storeIds_append]
    simp [Store.append]

/-- Witness for C9 on the empty store with two concrete submissions. -/
theorem store_append_distinct_ids_witness :
    (st0.append (normalize aliceInput) 0).2 ≠
      ((st0.append (normalize aliceInput) 0).1.append (normalize aliceInput) 1).2 ∧
    StoreIdInv ((st0.append (normalize aliceInput) 0).1.append (normalize aliceInput) 1).1 ∧
    storeIds ((st0.append (normalize aliceInput) 0).1.append (normalize aliceInput) 1).1 =
      storeIds st0 ++ [st0.nextId, st0.nextId + 1] :=
  store_append_distinct_ids st0 (normalize aliceInput) (normalize aliceInput) 0 1
    (by constructor <;> simp [storeIds, st0])

/-- C10: a request whose method is not POST is answered 405 Method Not
Allowed with the store and log untouched, and the whole outcome is the
same whatever the body and whatever the storage layer would have done:
neither the serializer nor the store is consulted. -/
theorem create_contact_non_post_rejected (method : String) (b1 b2 : ContactInput)
    (f1 f2 : Option String) (st : Store) (now : Nat) (h : method ≠ "POST") :
    (create_contact method b1 f1 st now).response.statusCode =
      HTTP_405_METHOD_NOT_ALLOWED ∧
    (create_contact method b1 f1 st now).store = st ∧
    (create_contact method b1 f1 st now).log = [] ∧
    create_contact method b1 f1 st now = create_contact method b2 f2 st now := by
  refine ⟨?_, ?_, ?_, ?_⟩ <;> simp [create_contact, h]

/-- Witness for C10: a GET with the valid body against two different
bodies and fault modes. -/
theorem create_contact_non_post_rejected_witness :
    (create_contact "GET" aliceInput none st0 0).response.statusCode =
      HTTP_405_METHOD_NOT_ALLOWED ∧
    (create_contact "GET" aliceInput none st0 0).store = st0 ∧
    (create_contact "GET" aliceInput none st0 0).log = [] ∧
    create_contact "GET" aliceInput none st0 0 =
      create_contact "GET" emptyInput (some "database unavailable") st0 0 :=
  create_contact_non_post_rejected "GET" aliceInput emptyInput none
    (some "database unavailable") st0 0 (by decide)

end ContactUs
